import Mathlib

/-!
Verification development for the `warwick-one-metre/rg11d` repository.

The repository consists of a single packaging script, `setup.py`, whose only
code is one call to `distutils.core.setup` with literal keyword arguments.
We shallowly embed the script: Python values become `PyValue`, expressions
become `PyExpr` (literals or variable references evaluated in an
environment), the statements of the script become `Stmt`, and the setup
call itself is the concrete keyword-argument list `rg11SetupCall`.
The raw text of the file is transcribed line by line into
`rg11SourceLines` so that line-count facts can be stated.
-/

namespace Rg11d

/-- A Python value as used by the script: a string, or a list of strings
(the only list appearing in the script is the `packages` list of package
name strings). -/
inductive PyValue where
  | str (s : String)
  | list (elems : List String)
deriving DecidableEq, Repr

/-- A Python expression as used by the script: a literal value, or a
variable reference whose value depends on the evaluation environment. -/
inductive PyExpr where
  | lit (v : PyValue)
  | var (name : String)
deriving DecidableEq, Repr

/-- An evaluation environment mapping variable names to values. -/
def Env : Type := String → Option PyValue

/-- Evaluate an expression in an environment.  Literals evaluate to
themselves; variables are looked up in the environment. -/
def evalExpr (env : Env) : PyExpr → Option PyValue
  | .lit v => some v
  | .var n => env n

/-- An expression is a literal when it carries a compile-time value. -/
def PyExpr.isLiteral : PyExpr → Bool
  | .lit _ => true
  | .var _ => false

/-- A call to `setup`, given by its keyword arguments in source order. -/
structure SetupCall where
  kwargs : List (String × PyExpr)
deriving DecidableEq, Repr

/-- Evaluate a keyword-argument list: evaluate every value expression,
failing if any of them fails. -/
def evalKwargs (env : Env) : List (String × PyExpr) → Option (List (String × PyValue))
  | [] => some []
  | (k, e) :: rest =>
    match evalExpr env e, evalKwargs env rest with
    | some v, some vs => some ((k, v) :: vs)
    | _, _ => none

/-- Evaluate a setup call to the metadata record it declares. -/
def evalSetupCall (env : Env) (c : SetupCall) : Option (List (String × PyValue)) :=
  evalKwargs env c.kwargs

/-- The `setup(...)` call of `src/setup.py`, lines 19-27, transcribed
keyword by keyword. -/
def rg11SetupCall : SetupCall :=
  { kwargs :=
      [ ("name", .lit (.str "warwick.observatory.rg11")),
        ("version", .lit (.str "0")),
        ("packages", .lit (.list ["warwick.observatory.rg11"])),
        ("author", .lit (.str "Paul Chote")),
        ("description", .lit (.str "Common backend code for the rg11 multiplexer daemon")),
        ("license", .lit (.str "GNU GPLv3")),
        ("author_email", .lit (.str "p.chote@warwick.ac.uk")),
        ("url", .lit (.str "https://github.com/warwick-one-metre/rg11d")) ] }

/-- A top-level Python statement, restricted to the forms relevant here:
a `from M import N` statement, a call statement, an assignment, a
function or class definition, or a control-flow statement. -/
inductive Stmt where
  | fromImport (module name : String)
  | exprCall (fn : String) (c : SetupCall)
  | assign (target : String) (e : PyExpr)
  | funcDef (name : String)
  | classDef (name : String)
  | ifStmt
  | forStmt
  | whileStmt
deriving DecidableEq, Repr

/-- Is the statement a function or class definition? -/
def Stmt.isDefinition : Stmt → Bool
  | .funcDef _ => true
  | .classDef _ => true
  | _ => false

/-- Is the statement a control-flow statement? -/
def Stmt.isControlFlow : Stmt → Bool
  | .ifStmt => true
  | .forStmt => true
  | .whileStmt => true
  | _ => false

/-- Is the statement an assignment (a mutation of a name)? -/
def Stmt.isAssign : Stmt → Bool
  | .assign _ _ => true
  | _ => false

/-- Is the statement a call statement? -/
def Stmt.isCall : Stmt → Bool
  | .exprCall _ _ => true
  | _ => false

/-- The statements of `src/setup.py`, in order: the import on line 17 and
the `setup(...)` call on lines 19-27.  The comment block on lines 1-15 and
the blank lines contribute no statements. -/
def rg11Script : List Stmt :=
  [ .fromImport "distutils.core" "setup",
    .exprCall "setup" rg11SetupCall ]

/-- The empty environment: no variable is bound. -/
def nilEnv : Env := fun _ => none

/-- The metadata record declared by the script, evaluated in the empty
environment (every argument is a literal, so the environment is unused). -/
def rg11Metadata : List (String × PyValue) :=
  (evalSetupCall nilEnv rg11SetupCall).getD []

/-- Look up a metadata field by keyword. -/
def metadataField (k : String) : Option PyValue :=
  rg11Metadata.lookup k

/-- A license string identifies GPLv3 when it ends with the token
`GPLv3`. -/
def identifiesGPLv3 (s : String) : Bool :=
  List.isSuffixOf "GPLv3".toList s.toList

/-- The 27 lines of `src/setup.py`, transcribed verbatim (the final line
has no trailing newline in the file). -/
def rg11SourceLines : List String :=
  [ "#",
    "# This file is part of rg11d.",
    "#",
    "# rg11d is free software: you can redistribute it and/or modify",
    "# it under the terms of the GNU General Public License as published by",
    "# the Free Software Foundation, either version 3 of the License, or",
    "# (at your option) any later version.",
    "#",
    "# rg11d is distributed in the hope that it will be useful,",
    "# but WITHOUT ANY WARRANTY; without even the implied warranty of",
    "# MERCHANTABILITY or FITNESS FOR A PARTICULAR PURPOSE.  See the",
    "# GNU General Public License for more details.",
    "#",
    "# You should have received a copy of the GNU General Public License",
    "# along with rg11d.  If not, see <http://www.gnu.org/licenses/>.",
    "",
    "from distutils.core import setup",
    "",
    "setup(name=\x27warwick.observatory.rg11\x27,",
    "      version=\x270\x27,",
    "      packages = [\x27warwick.observatory.rg11\x27],",
    "      author=\x27Paul Chote\x27,",
    "      description=\x27Common backend code for the rg11 multiplexer daemon\x27,",
    "      license=\x27GNU GPLv3\x27,",
    "      author_email=\x27p.chote@warwick.ac.uk\x27,",
    "      url=\x27https://github.com/warwick-one-metre/rg11d\x27,",
    ")" ]

/-- Claim C1: the setup invocation declares the distribution name to be
exactly the string `warwick.observatory.rg11`. -/
theorem name_field_declared :
    metadataField "name" = some (.str "warwick.observatory.rg11") := rfl

/-- Claim C2: the setup invocation declares the version to be exactly the
string `0`. -/
theorem version_field_declared :
    metadataField "version" = some (.str "0") := rfl

/-- Claim C3: the `packages` argument is exactly the one-element list
containing `warwick.observatory.rg11`; no other sub-package is declared. -/
theorem packages_field_declared :
    metadataField "packages" = some (.list ["warwick.observatory.rg11"]) := rfl

/-- Claim C4: the license metadata field is the string `GNU GPLv3`, which
identifies the GNU General Public License version 3. -/
theorem license_field_declares_gplv3 :
    metadataField "license" = some (.str "GNU GPLv3") ∧
    identifiesGPLv3 "GNU GPLv3" = true := ⟨rfl, rfl⟩

/-- Claim C5, counterexample: the declared description is not the
all-lowercase string claimed; the source capitalises the first word. -/
theorem description_not_lowercase :
    metadataField "description" ≠
      some (.str "common backend code for the rg11 multiplexer daemon") := by
  decide

/-- Claim C5, amended: the setup invocation declares the description to be
exactly the string `Common backend code for the rg11 multiplexer daemon`
(with a capital initial letter). -/
theorem description_field_declared :
    metadataField "description" =
      some (.str "Common backend code for the rg11 multiplexer daemon") := rfl

/-- Claim C6: author is `Paul Chote`, author email is
`p.chote@warwick.ac.uk`, and url is
`https://github.com/warwick-one-metre/rg11d`. -/
theorem author_email_url_declared :
    metadataField "author" = some (.str "Paul Chote") ∧
    metadataField "author_email" = some (.str "p.chote@warwick.ac.uk") ∧
    metadataField "url" = some (.str "https://github.com/warwick-one-metre/rg11d") :=
  ⟨rfl, rfl, rfl⟩

/-- Claim C7: the setup call passes exactly the keywords `name`,
`version`, `packages`, `author`, `description`, `license`, `author_email`
and `url`, every argument is a compile-time literal (so none depends on
the environment), and no `scripts`, `entry_points` or `data_files`
argument is passed. -/
theorem setup_kwargs_exactly :
    rg11SetupCall.kwargs.map Prod.fst =
      ["name", "version", "packages", "author", "description", "license",
       "author_email", "url"] ∧
    rg11SetupCall.kwargs.all (fun kv => kv.2.isLiteral) = true ∧
    (rg11SetupCall.kwargs.map Prod.fst).contains "scripts" = false ∧
    (rg11SetupCall.kwargs.map Prod.fst).contains "entry_points" = false ∧
    (rg11SetupCall.kwargs.map Prod.fst).contains "data_files" = false :=
  ⟨rfl, rfl, rfl, rfl, rfl⟩

/-- Claim C8: the source file is exactly 27 lines long, its statements
contain no function or class definition, no control flow and no
assignment, and its only computation is the single `setup` call, all of
whose arguments are literals. -/
theorem source_has_27_lines_no_algorithms :
    rg11SourceLines.length = 27 ∧
    rg11Script.countP Stmt.isCall = 1 ∧
    rg11Script.all
      (fun s => !s.isDefinition && !s.isControlFlow && !s.isAssign) = true ∧
    rg11SetupCall.kwargs.all (fun kv => kv.2.isLiteral) = true :=
  ⟨rfl, rfl, rfl, rfl⟩

/-- Claim C9: evaluating the setup call is deterministic: because every
argument is a literal, evaluation in any two environments produces the
identical metadata record, and no statement of the script assigns to
(mutates) any name. -/
theorem setup_evaluation_deterministic :
    (∀ env env' : Env,
        evalSetupCall env rg11SetupCall = evalSetupCall env' rg11SetupCall) ∧
    rg11Script.all (fun s => !s.isAssign) = true :=
  ⟨fun _ _ => rfl, rfl⟩

/-- Claim C10: the `packages` list has exactly one element and that
element equals, as a string, the `name` argument of the same setup call. -/
theorem packages_matches_name :
    ∃ n : String,
      metadataField "name" = some (.str n) ∧
      metadataField "packages" = some (.list [n]) :=
  ⟨"warwick.observatory.rg11", rfl, rfl⟩

end Rg11d
